import Mathlib

/- Verification development for the autonomous-strategic-evolution-engine
   repository: a multi-exchange market-data collection pipeline.  The
   configuration manager (config.py) and the exchange-map initialization
   (data_collector.py) are embedded from the source.  The Validator,
   Normalizer and retry scheduler components appear only in the design
   specification (the repository source truncates before them), so they
   are modelled from the specification, each such definition marked in
   its doc comment. -/

namespace DataPipeline

/-- Canonical normalized bar.  Embeds the source dataclass MarketData
(symbol, timeframe, timestamp, open, high, low, close, volume, optional
vwap / quote_volume / trade_count), extended with the source exchange
identifier required by the specification's MarketBar record.  Prices and
volumes are modelled as rationals, the timestamp as whole seconds since
the Unix epoch (UTC). -/
structure MarketBar where
  symbol : String
  timeframe : String
  timestamp : Nat
  «open» : Rat
  high : Rat
  low : Rat
  close : Rat
  volume : Rat
  vwap : Option Rat := none
  quote_volume : Option Rat := none
  trade_count : Option Nat := none
  source : String := ""
deriving DecidableEq

/-- Modelled from the spec: the individual checks a Validator failure
names (the source contains no Validator). -/
inductive ValidationCheck where
  | OHLCInconsistent
  | NegativeVolume
  | TimestampNotAligned
  | TimestampInFuture
deriving DecidableEq

/-- Modelled from the spec: the CollectorError taxonomy of section 7
(the source contains no structured error type). -/
inductive CollectorError where
  | ConfigError
  | AuthError
  | NetworkError
  | RateLimitError (retry_after : Option Nat)
  | TimeoutError
  | MalformedDataError
  | ValidationError (check : ValidationCheck)
  | Cancelled
deriving DecidableEq

/-- Bucket duration in seconds of each timeframe in the configured set
config.timeframes = ['5m', '15m', '1h', '4h', '1d']. -/
def bucketSeconds : String → Option Nat
  | "5m" => some 300
  | "15m" => some 900
  | "1h" => some 3600
  | "4h" => some 14400
  | "1d" => some 86400
  | _ => none

/-- Modelled from the spec: the documented alignment rule is floor to
the bucket boundary. -/
def floorAlign (ts bucket : Nat) : Nat :=
  ts / bucket * bucket

/-- A timestamp is aligned to a timeframe when flooring it to the
timeframe's bucket boundary leaves it unchanged. -/
def alignedTo (ts : Nat) (timeframe : String) : Bool :=
  match bucketSeconds timeframe with
  | some bucket => floorAlign ts bucket == ts
  | none => false

/-- OHLC ordering invariant: low ≤ open ≤ high, low ≤ close ≤ high,
low ≤ high. -/
def ohlcOk (b : MarketBar) : Bool :=
  decide (b.low ≤ b.«open») && decide (b.«open» ≤ b.high)
    && decide (b.low ≤ b.close) && decide (b.close ≤ b.high)
    && decide (b.low ≤ b.high)

/-- Non-negative volume check. -/
def volumeOk (b : MarketBar) : Bool :=
  decide (0 ≤ b.volume)

/-- Timestamp-alignment check on a bar. -/
def alignedOk (b : MarketBar) : Bool :=
  alignedTo b.timestamp b.timeframe

/-- Timestamp-not-in-the-future check, relative to the pipeline clock
`now` with skew tolerance `skew` (both in seconds). -/
def notInFuture (now skew : Nat) (b : MarketBar) : Bool :=
  decide (b.timestamp ≤ now + skew)

/-- Modelled from the spec: the default clock-skew tolerance is 5
seconds. -/
def defaultSkewTolerance : Nat := 5

/-- Modelled from the spec: the Validator's check list, in the fixed
order (a) OHLC ordering, (b) non-negative volume, (c) timestamp aligned
to the timeframe bucket boundary, (d) timestamp not in the future. -/
def checks (now skew : Nat) : List ((MarketBar → Bool) × ValidationCheck) :=
  [(ohlcOk, .OHLCInconsistent),
   (volumeOk, .NegativeVolume),
   (alignedOk, .TimestampNotAligned),
   (notInFuture now skew, .TimestampInFuture)]

/-- Runs a list of checks against a bar, reporting the first violated
check as a ValidationError and otherwise returning the bar. -/
def runChecks : List ((MarketBar → Bool) × ValidationCheck) → MarketBar →
    Except CollectorError MarketBar
  | [], b => .ok b
  | (p, c) :: rest, b => if p b then runChecks rest b else .error (.ValidationError c)

/-- Modelled from the spec: the Validator (absent from the source),
`validate(bar) -> Result<MarketBar, CollectorError>`, applying the
checks in order and reporting the first violation. -/
def validate (now skew : Nat) (b : MarketBar) : Except CollectorError MarketBar :=
  runChecks (checks now skew) b

/-- Modelled from the spec: the outward stream consists of exactly the
bars that pass the Validator, the final gate before emission. -/
def emittedStream (now skew : Nat) (bars : List MarketBar) : List MarketBar :=
  bars.filterMap (fun b => (validate now skew b).toOption)

/-- Modelled from the spec: one raw exchange response element, with a
millisecond timestamp and possibly missing fields. -/
structure RawBar where
  ts_ms : Option Nat := none
  o : Option Rat := none
  h : Option Rat := none
  l : Option Rat := none
  c : Option Rat := none
  v : Option Rat := none
deriving DecidableEq

/-- Modelled from the spec: the Normalizer (absent from the source).
It enforces presence of the required fields (MalformedDataError
otherwise), reconciles the timestamp from milliseconds to seconds, and
does not itself enforce OHLC ordering - that is the Validator's job. -/
def normalize (raw : RawBar) (symbol timeframe exchangeId : String) :
    Except CollectorError MarketBar :=
  match raw.ts_ms, raw.o, raw.h, raw.l, raw.c, raw.v with
  | some ts, some o, some h, some l, some c, some v =>
      .ok { symbol := symbol, timeframe := timeframe, timestamp := ts / 1000,
            «open» := o, high := h, low := l, close := c, volume := v,
            source := exchangeId }
  | _, _, _, _, _, _ => .error .MalformedDataError

/-- The raw response of the spec's concrete scenario:
ts 1700000000000 ms, o 100, h 105, l 99, c 103, v 10. -/
def raw1700 : RawBar :=
  { ts_ms := some 1700000000000, o := some 100, h := some 105,
    l := some 99, c := some 103, v := some 10 }

/-- The bar the Normalizer produces from raw1700 for BTC/USDT, 1h, on
binance: the millisecond timestamp becomes 1700000000 s, which is
2023-11-14T22:13:20Z, not on an hour boundary. -/
def bar1700 : MarketBar :=
  { symbol := "BTC/USDT", timeframe := "1h", timestamp := 1700000000,
    «open» := 100, high := 105, low := 99, close := 103, volume := 10,
    source := "binance" }

/-- A bar violating the OHLC ordering invariant: low 110 > high 105. -/
def badBar110 : MarketBar :=
  { symbol := "BTC/USDT", timeframe := "1h", timestamp := 1699999200,
    «open» := 100, high := 105, low := 110, close := 103, volume := 10,
    source := "binance" }

/-- A well-formed bar on an hour boundary (1700002800 = 472223 * 3600),
used to exercise the emission path. -/
def goodBar : MarketBar :=
  { symbol := "BTC/USDT", timeframe := "1h", timestamp := 1700002800,
    «open» := 100, high := 105, low := 99, close := 103, volume := 10,
    source := "binance" }

/-- Modelled from the spec: which CollectorError kinds are retryable
(section 7 taxonomy; the source contains no retry logic).  NetworkError,
RateLimitError and TimeoutError are transient and retryable; AuthError,
ConfigError and ValidationError are not; MalformedDataError is terminal
beyond a single re-fetch, which this model folds into non-retryable. -/
def retryable : CollectorError → Bool
  | .NetworkError => true
  | .RateLimitError _ => true
  | .TimeoutError => true
  | _ => false

/-- Modelled from the spec: per-target states of the scheduler's state
machine (absent from the source). -/
inductive TargetState where
  | Pending
  | Fetching
  | Normalizing
  | Validating
  | Emitted
  | Retrying
  | Failed
deriving DecidableEq

/-- Modelled from the spec: where a failing target transitions - to
Retrying when retry budget remains and the error kind is retryable,
otherwise to the terminal Failed state. -/
def onFailure (budget : Nat) (e : CollectorError) : TargetState :=
  if retryable e = true ∧ 0 < budget then .Retrying else .Failed

/-- Modelled from the spec: exponential backoff, delay = base * 2 ^
attempt capped at the configured maximum (delays in milliseconds). -/
def backoffDelay (base cap attempt : Nat) : Nat :=
  min (base * 2 ^ attempt) cap

/-- Modelled from the spec: the delay applied before the next retry.
On RateLimitError a retry-after hint overrides the computed backoff. -/
def retryDelay (base cap : Nat) (e : CollectorError) (attempt : Nat) : Nat :=
  match e with
  | .RateLimitError (some hint) => hint
  | _ => backoffDelay base cap attempt

/-- Outcome of one fetch attempt on a target. -/
inductive AttemptResult where
  | success
  | failure (e : CollectorError)
deriving DecidableEq

/-- Modelled from the spec: the retry loop of a single target.  Given
the per-attempt outcomes, it accumulates the total backoff delay up to
the attempt that succeeds (the target then reaches Emitted), or returns
none when the target ends in Failed (budget exhausted, non-retryable
error, or outcomes exhausted). -/
def runRetries (base cap : Nat) : List AttemptResult → Nat → Nat → Option Nat
  | [], _, _ => none
  | .success :: _, _, _ => some 0
  | .failure e :: rest, budget, attempt =>
      if retryable e = true ∧ 0 < budget then
        (runRetries base cap rest (budget - 1) (attempt + 1)).map
          (fun d => retryDelay base cap e attempt + d)
      else none

/-- Embeds the source dataclass ExchangeConfig of config.py: name,
api_key, secret, enable_rate_limit (default True). -/
structure ExchangeConfig where
  name : String
  api_key : String
  secret : String
  enable_rate_limit : Bool := true
deriving DecidableEq

/-- The parameter dictionary data_collector.py passes to the ccxt
exchange constructor: apiKey, secret, enableRateLimit, timeout, and the
options defaultType / adjustForTimeDifference. -/
structure ConnectorParams where
  apiKey : String
  secret : String
  enableRateLimit : Bool
  timeout : Nat
  defaultType : String
  adjustForTimeDifference : Bool
deriving DecidableEq

/-- Embeds DataCollector.initialize_exchanges of data_collector.py.
For each configured exchange it constructs a connector only when both
api_key and secret are non-empty (Python string truthiness), resolving
the exchange class by name (`known` models which names getattr(ccxt, -)
resolves; an unknown name raises inside the per-exchange try block and
the exchange is skipped).  The constructed connector carries the literal
parameters of lines 45-54, including timeout 30000 ms. -/
def initialize_exchanges (known : String → Bool)
    (exchanges : List (String × ExchangeConfig)) : List (String × ConnectorParams) :=
  exchanges.filterMap (fun nc =>
    if nc.2.api_key ≠ "" ∧ nc.2.secret ≠ "" then
      if known nc.1 then
        some (nc.1,
          { apiKey := nc.2.api_key, secret := nc.2.secret,
            enableRateLimit := nc.2.enable_rate_limit, timeout := 30000,
            defaultType := "spot", adjustForTimeDifference := true })
      else none
    else none)

/-- The external world TradingConfig._init_firebase interacts with:
the firebase_admin._apps registry, the Certificate loader (which may
fail on a missing or malformed credentials file), initialize_app (which
may fail), and get_app.  Failure of the abstracted operations is
represented with Except. -/
structure FirebaseWorld (Cred App : Type) where
  apps : List App
  certificate : String → Except String Cred
  initialize_app : Cred → Except String App
  get_app : Except String App

namespace TradingConfig

/-- The try-block body of TradingConfig._init_firebase (config.py lines
80-88): when no Firebase app exists yet, load the certificate from the
credentials path and initialize an app; otherwise return the existing
app. -/
def init_firebase_body {Cred App : Type} (w : FirebaseWorld Cred App)
    (path : String) : Except String App :=
  if w.apps.isEmpty then
    match w.certificate path with
    | .error e => .error e
    | .ok cred =>
        match w.initialize_app cred with
        | .error e => .error e
        | .ok app => .ok app
  else
    w.get_app

/-- Embeds TradingConfig._init_firebase of config.py: the whole body
runs inside try/except Exception, and any failure is converted into the
None return (memory-storage fallback).  The result is lifted to Except
so that an uncaught exception would appear as an error value. -/
def init_firebase {Cred App : Type} (w : FirebaseWorld Cred App)
    (path : String) : Except String (Option App) :=
  match init_firebase_body w path with
  | .ok app => .ok (some app)
  | .error _ => .ok none

/-- The process environment and filesystem as TradingConfig sees them:
os.getenv and os.path.exists. -/
structure OsEnv where
  getenv : String → Option String
  path_exists : String → Bool

/-- Python truthiness of os.getenv(var): falsy when the variable is
unset or set to the empty string. -/
def envTruthy (env : OsEnv) (var : String) : Bool :=
  match env.getenv var with
  | some s => decide (s ≠ "")
  | none => false

/-- The firebase_credentials_path attribute set in TradingConfig.__init__
(config.py line 48): os.getenv with default 'firebase_credentials.json'
(the default applies only when the variable is unset). -/
def credentialsPathAttr (env : OsEnv) : String :=
  (env.getenv "FIREBASE_CREDENTIALS_PATH").getD "firebase_credentials.json"

/-- Embeds TradingConfig.validate of config.py lines 95-108: collect
the required environment variables that are falsy via os.getenv, return
False if any is missing, then return False if no file exists at the
stored firebase_credentials_path attribute, else True. -/
def validate (env : OsEnv) (firebase_credentials_path : String) : Bool :=
  let missing := ["FIREBASE_PROJECT_ID", "FIREBASE_CREDENTIALS_PATH"].filter
    (fun v => !(envTruthy env v))
  if !missing.isEmpty then
    false
  else if !(env.path_exists firebase_credentials_path) then
    false
  else
    true

end TradingConfig

/-- A sample environment in which FIREBASE_PROJECT_ID is set and
non-empty, FIREBASE_CREDENTIALS_PATH is unset, and every path exists on
the filesystem. -/
def envNoCredPath : TradingConfig.OsEnv :=
  { getenv := fun v => if v = "FIREBASE_PROJECT_ID" then some "proj" else none,
    path_exists := fun _ => true }

/-- A sample exchange-name resolver under which every name is a valid
ccxt exchange class. -/
def sampleKnown : String → Bool := fun _ => true

/-- A sample exchange configuration with non-empty credentials. -/
def sampleExchanges : List (String × ExchangeConfig) :=
  [("binance", { name := "binance", api_key := "key1", secret := "sec1" })]

/-- The connector parameters initialize_exchanges builds from
sampleExchanges. -/
def sampleParams : ConnectorParams :=
  { apiKey := "key1", secret := "sec1", enableRateLimit := true,
    timeout := 30000, defaultType := "spot", adjustForTimeDifference := true }

/-- When runChecks returns ok, it returns the input bar unchanged and
every check in the list holds on it. -/
theorem runChecks_ok_mem {l : List ((MarketBar → Bool) × ValidationCheck)}
    {a b : MarketBar} (h : runChecks l a = .ok b) :
    b = a ∧ ∀ pc ∈ l, pc.1 a = true := by
  induction l with
  | nil =>
    simp only [runChecks, Except.ok.injEq] at h
    exact ⟨h.symm, by simp⟩
  | cons hd tl ih =>
    obtain ⟨p, c⟩ := hd
    simp only [runChecks] at h
    by_cases hp : p a = true
    · rw [if_pos hp] at h
      obtain ⟨hb, hall⟩ := ih h
      refine ⟨hb, ?_⟩
      intro pc hmem
      rcases List.mem_cons.mp hmem with heq | hmem2
      · rw [heq]; exact hp
      · exact hall pc hmem2
    · rw [if_neg hp] at h
      simp at h

/-- Claim C1: every MarketBar on the outward stream satisfies
low ≤ open ≤ high, low ≤ close ≤ high, low ≤ high, volume ≥ 0, and its
timestamp is aligned to its timeframe's bucket boundary; no bar
violating any of these is emitted, because the Validator is the final
gate before emission. -/
theorem emitted_bars_satisfy_invariants (now skew : Nat) (bars : List MarketBar)
    (b : MarketBar) (h : b ∈ emittedStream now skew bars) :
    b.low ≤ b.«open» ∧ b.«open» ≤ b.high ∧ b.low ≤ b.close ∧ b.close ≤ b.high
      ∧ b.low ≤ b.high ∧ 0 ≤ b.volume
      ∧ alignedTo b.timestamp b.timeframe = true := by
  rw [emittedStream, List.mem_filterMap] at h
  obtain ⟨a, _, hfa⟩ := h
  have hok : validate now skew a = Except.ok b := by
    cases hv : validate now skew a with
    | ok x =>
      rw [hv] at hfa
      simp only [Except.toOption, Option.some.injEq] at hfa
      rw [hfa]
    | error e =>
      rw [hv] at hfa
      simp [Except.toOption] at hfa
  obtain ⟨hb, hall⟩ := runChecks_ok_mem hok
  have h1 : ohlcOk a = true := hall (ohlcOk, .OHLCInconsistent) (by simp [checks])
  have h2 : volumeOk a = true := hall (volumeOk, .NegativeVolume) (by simp [checks])
  have h3 : alignedOk a = true := hall (alignedOk, .TimestampNotAligned) (by simp [checks])
  simp only [ohlcOk, Bool.and_eq_true, decide_eq_true_eq] at h1
  simp only [volumeOk, decide_eq_true_eq] at h2
  simp only [alignedOk] at h3
  rw [hb]
  exact ⟨h1.1.1.1.1, h1.1.1.1.2, h1.1.1.2, h1.1.2, h1.2, h2, h3⟩

/-- Claim C1 witness: a concrete well-formed bar is emitted and the
theorem yields its invariants. -/
theorem emitted_bars_satisfy_invariants_witness :
    goodBar ∈ emittedStream 1700002800 5 [goodBar]
      ∧ (goodBar.low ≤ goodBar.«open» ∧ goodBar.«open» ≤ goodBar.high
          ∧ goodBar.low ≤ goodBar.close ∧ goodBar.close ≤ goodBar.high
          ∧ goodBar.low ≤ goodBar.high ∧ 0 ≤ goodBar.volume
          ∧ alignedTo goodBar.timestamp goodBar.timeframe = true) := by
  have hmem : goodBar ∈ emittedStream 1700002800 5 [goodBar] := by decide
  exact ⟨hmem, emitted_bars_satisfy_invariants 1700002800 5 [goodBar] goodBar hmem⟩

/-- Claim C3: validate applies its checks in the fixed order OHLC
ordering, non-negative volume, timestamp alignment, timestamp not in
the future, and returns a ValidationError naming the first violated
check; in particular a bar with low 110 > high 105 yields
ValidationError OHLCInconsistent; on success it returns the bar; the
default skew tolerance is 5 seconds. -/
theorem validate_first_violation (now skew : Nat) (b : MarketBar) :
    (validate now skew b = .error (.ValidationError .OHLCInconsistent) ↔
        ohlcOk b = false)
    ∧ (validate now skew b = .error (.ValidationError .NegativeVolume) ↔
        ohlcOk b = true ∧ volumeOk b = false)
    ∧ (validate now skew b = .error (.ValidationError .TimestampNotAligned) ↔
        ohlcOk b = true ∧ volumeOk b = true ∧ alignedOk b = false)
    ∧ (validate now skew b = .error (.ValidationError .TimestampInFuture) ↔
        ohlcOk b = true ∧ volumeOk b = true ∧ alignedOk b = true
          ∧ notInFuture now skew b = false)
    ∧ (validate now skew b = .ok b ↔
        ohlcOk b = true ∧ volumeOk b = true ∧ alignedOk b = true
          ∧ notInFuture now skew b = true)
    ∧ validate now skew badBar110 = .error (.ValidationError .OHLCInconsistent)
    ∧ defaultSkewTolerance = 5 := by
  have heq : ∀ c : MarketBar, validate now skew c =
      if ohlcOk c = true then
        if volumeOk c = true then
          if alignedOk c = true then
            if notInFuture now skew c = true then .ok c
            else .error (.ValidationError .TimestampInFuture)
          else .error (.ValidationError .TimestampNotAligned)
        else .error (.ValidationError .NegativeVolume)
      else .error (.ValidationError .OHLCInconsistent) := fun c => rfl
  have hbad : validate now skew badBar110 =
      .error (.ValidationError .OHLCInconsistent) := by
    rw [heq badBar110]
    rfl
  refine ⟨?_, ?_, ?_, ?_, ?_, hbad, rfl⟩ <;>
    rw [heq b] <;>
      cases h1 : ohlcOk b <;> cases h2 : volumeOk b <;> cases h3 : alignedOk b <;>
        cases h4 : notInFuture now skew b <;> simp

/-- Claim C4: on the raw response with millisecond timestamp
1700000000000, o 100, h 105, l 99, c 103, v 10 and timeframe 1h,
normalize produces exactly those OHLCV values with timestamp
1700000000 s (2023-11-14T22:13:20Z); that timestamp is not on an hour
boundary under the floor-to-bucket alignment rule (its floor is
1699999200, i.e. 22:00:00Z), so normalize followed by validate rejects
with ValidationError TimestampNotAligned. -/
theorem normalize_validate_scenario_1700 :
    normalize raw1700 "BTC/USDT" "1h" "binance" = .ok bar1700
    ∧ bar1700.«open» = 100 ∧ bar1700.high = 105 ∧ bar1700.low = 99
    ∧ bar1700.close = 103 ∧ bar1700.volume = 10
    ∧ bar1700.timestamp = 1700000000
    ∧ alignedTo 1700000000 "1h" = false
    ∧ floorAlign 1700000000 3600 = 1699999200
    ∧ (normalize raw1700 "BTC/USDT" "1h" "binance").bind
        (validate 1700000000 defaultSkewTolerance)
        = .error (.ValidationError .TimestampNotAligned) :=
  ⟨rfl, rfl, rfl, rfl, rfl, rfl, rfl, rfl, rfl, rfl⟩

/-- Claim C5: the retry delay before attempt `a` is base * 2 ^ a capped
at the configured maximum, a RateLimitError retry-after hint overrides
it, and a target failing with NetworkError on its first two attempts
and succeeding on the third reaches Emitted with total backoff delay in
the interval from base * 2 ^ 0 + base * 2 ^ 1 up to cap * 2 (stated for
configurations whose cap is at least the attempt-1 backoff, so that the
cap does not truncate below the claimed lower bound). -/
theorem backoff_formula_and_bounds (base cap a hint : Nat) (h : 2 * base ≤ cap) :
    backoffDelay base cap a = min (base * 2 ^ a) cap
    ∧ retryDelay base cap (.RateLimitError (some hint)) a = hint
    ∧ runRetries base cap [.failure .NetworkError, .failure .NetworkError, .success] 5 0
        = some (base * 2 ^ 0 + base * 2 ^ 1)
    ∧ base * 2 ^ 0 + base * 2 ^ 1 ≤ cap * 2 := by
  have hpow0 : (2 : Nat) ^ 0 = 1 := by norm_num
  have hpow1 : (2 : Nat) ^ 1 = 2 := by norm_num
  refine ⟨rfl, rfl, ?_, ?_⟩
  · simp [runRetries, retryable, retryDelay, backoffDelay, hpow0, hpow1]
    omega
  · rw [hpow0, hpow1]
    omega

/-- Claim C5 witness: the bounds at base 100 ms, cap 1000 ms. -/
theorem backoff_formula_and_bounds_witness :
    2 * 100 ≤ 1000
    ∧ (backoffDelay 100 1000 3 = min (100 * 2 ^ 3) 1000
        ∧ retryDelay 100 1000 (.RateLimitError (some 77)) 3 = 77
        ∧ runRetries 100 1000
            [.failure .NetworkError, .failure .NetworkError, .success] 5 0
            = some (100 * 2 ^ 0 + 100 * 2 ^ 1)
        ∧ 100 * 2 ^ 0 + 100 * 2 ^ 1 ≤ 1000 * 2) :=
  ⟨by norm_num, backoff_formula_and_bounds 100 1000 3 77 (by norm_num)⟩

/-- Claim C6: with retry budget remaining, a TimeoutError sends the
target to Retrying (TimeoutError is classified retryable in the error
taxonomy), not to the terminal Failed state. -/
theorem timeout_error_goes_to_retrying (budget : Nat) (h : 0 < budget) :
    onFailure budget .TimeoutError = .Retrying
    ∧ retryable .TimeoutError = true
    ∧ onFailure budget .TimeoutError ≠ .Failed := by
  have h1 : onFailure budget .TimeoutError = .Retrying := by
    simp [onFailure, retryable, h]
  exact ⟨h1, rfl, by rw [h1]; simp⟩

/-- Claim C6 witness: budget 5. -/
theorem timeout_error_goes_to_retrying_witness :
    0 < 5
    ∧ (onFailure 5 .TimeoutError = .Retrying
        ∧ retryable .TimeoutError = true
        ∧ onFailure 5 .TimeoutError ≠ .Failed) :=
  ⟨by norm_num, timeout_error_goes_to_retrying 5 (by norm_num)⟩

/-- Claim C7: whenever a live connector exists in the collector's
exchange map, its credentials are non-empty: initialize_exchanges
constructs a connector only when both the configured api_key and secret
are non-empty strings, and the connector carries exactly those
credentials. -/
theorem connector_implies_nonempty_credentials (known : String → Bool)
    (exchanges : List (String × ExchangeConfig)) (name : String)
    (p : ConnectorParams) (h : (name, p) ∈ initialize_exchanges known exchanges) :
    p.apiKey ≠ "" ∧ p.secret ≠ ""
      ∧ ∃ cfg, (name, cfg) ∈ exchanges
          ∧ cfg.api_key = p.apiKey ∧ cfg.secret = p.secret := by
  rw [initialize_exchanges, List.mem_filterMap] at h
  obtain ⟨nc, hmem, hf⟩ := h
  by_cases hcred : nc.2.api_key ≠ "" ∧ nc.2.secret ≠ ""
  · rw [if_pos hcred] at hf
    by_cases hk : known nc.1 = true
    · rw [if_pos hk] at hf
      simp only [Option.some.injEq, Prod.mk.injEq] at hf
      obtain ⟨hname, hp⟩ := hf
      refine ⟨?_, ?_, nc.2, ?_, ?_, ?_⟩
      · rw [← hp]; exact hcred.1
      · rw [← hp]; exact hcred.2
      · rw [← hname]; exact hmem
      · rw [← hp]
      · rw [← hp]
    · rw [if_neg hk] at hf
      simp at hf
  · rw [if_neg hcred] at hf
    simp at hf

/-- Claim C7 witness: a configured exchange with non-empty credentials
yields a connector, and the theorem recovers the credentials. -/
theorem connector_implies_nonempty_credentials_witness :
    ("binance", sampleParams) ∈ initialize_exchanges sampleKnown sampleExchanges
      ∧ (sampleParams.apiKey ≠ "" ∧ sampleParams.secret ≠ ""
          ∧ ∃ cfg, ("binance", cfg) ∈ sampleExchanges
              ∧ cfg.api_key = sampleParams.apiKey
              ∧ cfg.secret = sampleParams.secret) := by
  have hmem : ("binance", sampleParams) ∈
      initialize_exchanges sampleKnown sampleExchanges := by decide
  exact ⟨hmem, connector_implies_nonempty_credentials sampleKnown sampleExchanges
    "binance" sampleParams hmem⟩

/-- Claim C8: every connector constructed by initialize_exchanges is
configured with a network-call timeout of exactly 30000 ms (30 s). -/
theorem connector_timeout_is_30s (known : String → Bool)
    (exchanges : List (String × ExchangeConfig)) (name : String)
    (p : ConnectorParams) (h : (name, p) ∈ initialize_exchanges known exchanges) :
    p.timeout = 30000 := by
  rw [initialize_exchanges, List.mem_filterMap] at h
  obtain ⟨nc, hmem, hf⟩ := h
  by_cases hcred : nc.2.api_key ≠ "" ∧ nc.2.secret ≠ ""
  · rw [if_pos hcred] at hf
    by_cases hk : known nc.1 = true
    · rw [if_pos hk] at hf
      simp only [Option.some.injEq, Prod.mk.injEq] at hf
      rw [← hf.2]
    · rw [if_neg hk] at hf
      simp at hf
  · rw [if_neg hcred] at hf
    simp at hf

/-- Claim C8 witness: the sample connector has timeout 30000. -/
theorem connector_timeout_is_30s_witness :
    ("binance", sampleParams) ∈ initialize_exchanges sampleKnown sampleExchanges
      ∧ sampleParams.timeout = 30000 := by
  have hmem : ("binance", sampleParams) ∈
      initialize_exchanges sampleKnown sampleExchanges := by decide
  exact ⟨hmem, connector_timeout_is_30s sampleKnown sampleExchanges
    "binance" sampleParams hmem⟩

/-- Claim C9: TradingConfig._init_firebase always returns normally -
an app handle when the try body succeeds, None when anything in it
fails - and never propagates an error out of the except handler. -/
theorem init_firebase_never_raises {Cred App : Type}
    (w : FirebaseWorld Cred App) (path : String) :
    (∀ e, TradingConfig.init_firebase w path ≠ .error e)
    ∧ ((∃ app, TradingConfig.init_firebase_body w path = .ok app
          ∧ TradingConfig.init_firebase w path = .ok (some app))
        ∨ ((∃ e, TradingConfig.init_firebase_body w path = .error e)
            ∧ TradingConfig.init_firebase w path = .ok none)) := by
  cases hb : TradingConfig.init_firebase_body w path with
  | ok app =>
    have h2 : TradingConfig.init_firebase w path = .ok (some app) := by
      simp [TradingConfig.init_firebase, hb]
    exact ⟨fun e => by rw [h2]; simp, .inl ⟨app, rfl, h2⟩⟩
  | error e =>
    have h2 : TradingConfig.init_firebase w path = .ok none := by
      simp [TradingConfig.init_firebase, hb]
    exact ⟨fun e2 => by rw [h2]; simp, .inr ⟨⟨e, rfl⟩, h2⟩⟩

/-- Claim C10: TradingConfig.validate returns True iff both
FIREBASE_PROJECT_ID and FIREBASE_CREDENTIALS_PATH are set non-empty in
the environment and a file exists at the stored
firebase_credentials_path attribute; because it re-reads the
environment rather than the attribute, it returns False when
FIREBASE_CREDENTIALS_PATH is unset even though the attribute then holds
the non-empty default firebase_credentials.json and that file exists. -/
theorem config_validate_iff (env : TradingConfig.OsEnv) (path : String) :
    (TradingConfig.validate env path = true ↔
      (TradingConfig.envTruthy env "FIREBASE_PROJECT_ID" = true
        ∧ TradingConfig.envTruthy env "FIREBASE_CREDENTIALS_PATH" = true
        ∧ env.path_exists path = true))
    ∧ TradingConfig.credentialsPathAttr envNoCredPath = "firebase_credentials.json"
    ∧ envNoCredPath.path_exists "firebase_credentials.json" = true
    ∧ TradingConfig.envTruthy envNoCredPath "FIREBASE_PROJECT_ID" = true
    ∧ TradingConfig.validate envNoCredPath
        (TradingConfig.credentialsPathAttr envNoCredPath) = false := by
  refine ⟨?_, rfl, rfl, rfl, rfl⟩
  cases ht1 : TradingConfig.envTruthy env "FIREBASE_PROJECT_ID" <;>
    cases ht2 : TradingConfig.envTruthy env "FIREBASE_CREDENTIALS_PATH" <;>
      cases hpe : env.path_exists path <;>
        simp [TradingConfig.validate, List.filter, ht1, ht2, hpe]

end DataPipeline
